import Mathlib

/-!
Shallow embedding of `src/v3io_gputils/mpijob.py` (v3io/v3io-gputils).

Python dicts of fixed shape become Lean structures; the two pod-template
dict constants become structure values; the `MpiJob` class becomes a state
record whose methods are pure state-transformers.  Environment variables
(`V3IO_ACCESS_KEY`, `V3IO_USERNAME`, `V3IO_HOME`) are passed as explicit
arguments at the points where the Python code reads them.  Python
exceptions that escape a function are modelled with `Except`.
-/

/-- Error raised by `split_path`.  In the Python source the failure on an
empty input is the `IndexError` raised by `mntpath[0]`; the spec calls this
failure `InvalidPathError`. -/
inductive SplitPathError where
  | invalidPath
deriving Repr, DecidableEq

/-- Model of Python `str.split('/')` on a list of characters: splits on
every `'/'`, keeping empty segments, and always returns at least one
segment (`"".split('/') == ['']`). -/
def splitOnSlash : List Char → List (List Char)
  | [] => [[]]
  | c :: rest =>
    let r := splitOnSlash rest
    if c = '/' then [] :: r
    else
      match r with
      | [] => [[c]]
      | s :: ss => (c :: s) :: ss

/-- The body of `split_path` after the optional strip of one leading `/`:
`paths = mntpath.split('/')`, `container = paths[0]`, and
`subpath = mntpath[len(container):]` when there is more than one segment,
else the empty string.  (`split('/')` never returns an empty list, so
`paths[0]` cannot fail; `headD` is used with that in mind.) -/
def split_path_stripped (m : List Char) : Except SplitPathError (List Char × List Char) :=
  let paths := splitOnSlash m
  let container := paths.headD []
  let subpath := if paths.length > 1 then m.drop container.length else []
  .ok (container, subpath)

/-- `split_path` on the character list of the input: `mntpath[0]` on the
empty string raises (modelled as `.error .invalidPath`); a single leading
`'/'` is stripped; then the stripped body runs. -/
def split_path_core (mntpath : List Char) : Except SplitPathError (List Char × List Char) :=
  match mntpath with
  | [] => .error .invalidPath
  | c :: rest => split_path_stripped (if c = '/' then rest else c :: rest)

/-- `split_path(mntpath)` from `mpijob.py` lines 214-222. -/
def split_path (mntpath : String) : Except SplitPathError (String × String) :=
  (split_path_core mntpath.data).map (fun p => (String.mk p.1, String.mk p.2))

/-- `{'limits': {gpu_type: num}}` resource dict of a container. -/
structure Resources where
  limits : List (String × Int)
deriving Repr, DecidableEq

/-- `securityContext` dict of a container. -/
structure SecurityContext where
  capabilitiesAdd : List String
deriving Repr, DecidableEq

/-- One entry of a container's `volumeMounts` list. -/
structure VolumeMount where
  name : String
  mountPath : String
deriving Repr, DecidableEq

/-- The `options` dict of a flexVolume. -/
structure FlexVolumeOptions where
  container : String
  subPath : String
  accessKey : String
deriving Repr, DecidableEq

/-- The `flexVolume` dict of a volume. -/
structure FlexVolume where
  driver : String
  options : FlexVolumeOptions
deriving Repr, DecidableEq

/-- One entry of a pod spec's `volumes` list. -/
structure Volume where
  name : String
  flexVolume : FlexVolume
deriving Repr, DecidableEq

/-- One entry of a pod spec's `containers` list.  `volumeMounts` and
`resources` are `Option` because the launcher default template has no such
keys while the worker default template has both. -/
structure Container where
  image : String
  name : String
  command : List String
  volumeMounts : Option (List VolumeMount)
  workingDir : String
  securityContext : SecurityContext
  resources : Option Resources
deriving Repr, DecidableEq

/-- The `spec` dict of a pod template. -/
structure PodSpec where
  containers : List Container
  volumes : List Volume
deriving Repr, DecidableEq

/-- A pod template dict.  `volumes` is the template-level `volumes` key
that `_update_volumes` writes (line 147 assigns
`self._pod_templates[t]['volumes']`, a sibling of `'spec'`, not
`['spec']['volumes']`); the default templates do not have this key, hence
`Option`. -/
structure PodTemplate where
  spec : PodSpec
  volumes : Option (List Volume)
deriving Repr, DecidableEq

/-- `_mpijob_launcher_pod_template` (lines 21-45). -/
def _mpijob_launcher_pod_template : PodTemplate :=
  { spec :=
      { containers :=
          [{ image := "iguaziodocker/horovod:0.1.1"
           , name := ""
           , command := []
           , volumeMounts := none
           , workingDir := "/User"
           , securityContext := { capabilitiesAdd := ["IPC_LOCK"] }
           , resources := none }]
      , volumes :=
          [{ name := "v3io"
           , flexVolume :=
               { driver := "v3io/fuse"
               , options := { container := "users", subPath := "", accessKey := "" } } }] }
  , volumes := none }

/-- `_mpijob_worker_pod_template` (lines 47-71). -/
def _mpijob_worker_pod_template : PodTemplate :=
  { spec :=
      { containers :=
          [{ image := "iguaziodocker/horovod:0.1.1"
           , name := ""
           , command := []
           , volumeMounts := some [{ name := "v3io", mountPath := "/User" }]
           , workingDir := "/User"
           , securityContext := { capabilitiesAdd := ["IPC_LOCK"] }
           , resources := some { limits := [("nvidia.com/gpu", 1)] } }]
      , volumes :=
          [{ name := "v3io"
           , flexVolume :=
               { driver := "v3io/fuse"
               , options := { container := "users", subPath := "", accessKey := "" } } }] }
  , volumes := none }

/-- `MPIJobPodTemplateType` (lines 9-18): the two role keys of
`self._pod_templates`. -/
inductive MPIJobPodTemplateType where
  | launcher
  | worker
deriving Repr, DecidableEq

/-- `MPIJobPodTemplateType.all()` (lines 13-18). -/
def MPIJobPodTemplateType.all : List MPIJobPodTemplateType :=
  [MPIJobPodTemplateType.launcher, MPIJobPodTemplateType.worker]

/-- State of an `MpiJob` instance.  `api_instance` is the client handle
(`None` until `submit()` binds one; the remote client itself is external,
so a bound handle is `some ()`).  The two pod templates are the entries of
`self._pod_templates`.  `_struct` is not stored whole: it holds references
to the pod-template dicts (so their later mutation shows through it) and
its only parts not recoverable from the other fields are the
`Worker.replicas` value fixed at `__init__` and the `spec['replicas']` key
that only the `replicas()` mutator (line 176) creates; those two are kept
as `struct_worker_replicas` and `struct_spec_replicas`.  `namespace` is a
Lean keyword, hence the field name `namespace_`. -/
structure MpiJob where
  api_instance : Option Unit
  name : String
  namespace_ : String
  launcher_pod_template : PodTemplate
  worker_pod_template : PodTemplate
  struct_worker_replicas : Int
  struct_spec_replicas : Option Int
deriving Repr, DecidableEq

/-- Apply `f` to the pod template stored under role `t`. -/
def MpiJob.update_pod_template (j : MpiJob) (t : MPIJobPodTemplateType)
    (f : PodTemplate → PodTemplate) : MpiJob :=
  match t with
  | .launcher => { j with launcher_pod_template := f j.launcher_pod_template }
  | .worker => { j with worker_pod_template := f j.worker_pod_template }

/-- The `for template_type in template_types:` loop shared by all
`_update_*` helpers. -/
def MpiJob.update_pod_templates (j : MpiJob) (f : PodTemplate → PodTemplate)
    (template_types : List MPIJobPodTemplateType) : MpiJob :=
  template_types.foldl (fun acc t => acc.update_pod_template t f) j

/-- `_update_container(key, value, template_types)` (lines 132-134):
assigns one key of `containers[0]` on each listed template.  The dynamic
`key`/`value` pair is embedded as the record update `f` on the head
container (every template in this file has exactly one container). -/
def MpiJob._update_container (j : MpiJob) (f : Container → Container)
    (template_types : List MPIJobPodTemplateType) : MpiJob :=
  j.update_pod_templates
    (fun t => { t with spec := { t.spec with containers := t.spec.containers.modifyHead f } })
    template_types

/-- `_update_access_token` (lines 136-138): sets
`spec.volumes[0].flexVolume.options.accessKey`. -/
def MpiJob._update_access_token (j : MpiJob) (token : String)
    (template_types : List MPIJobPodTemplateType) : MpiJob :=
  j.update_pod_templates
    (fun t =>
      { t with
          spec :=
            { t.spec with
                volumes :=
                  t.spec.volumes.modifyHead
                    (fun v =>
                      { v with
                          flexVolume :=
                            { v.flexVolume with
                                options :=
                                  { v.flexVolume.options with
                                      accessKey := token } } }) } })
    template_types

/-- `_update_running_user` (lines 140-143): sets
`spec.volumes[0].flexVolume.options.subPath` to `'/' + username`. -/
def MpiJob._update_running_user (j : MpiJob) (username : String)
    (template_types : List MPIJobPodTemplateType) : MpiJob :=
  j.update_pod_templates
    (fun t =>
      { t with
          spec :=
            { t.spec with
                volumes :=
                  t.spec.volumes.modifyHead
                    (fun v =>
                      { v with
                          flexVolume :=
                            { v.flexVolume with
                                options :=
                                  { v.flexVolume.options with
                                      subPath := "/" ++ username } } }) } })
    template_types

/-- `_update_volumes` (lines 145-147): assigns
`self._pod_templates[t]['volumes'] = volumes` — note the target is the
template-level `'volumes'` key (a sibling of `'spec'`), not
`['spec']['volumes']`. -/
def MpiJob._update_volumes (j : MpiJob) (volumes : List Volume)
    (template_types : List MPIJobPodTemplateType) : MpiJob :=
  j.update_pod_templates (fun t => { t with volumes := some volumes }) template_types

/-- `MpiJob.__init__` (lines 91-111).  `image` and `command` default to
`None`; Python truthiness makes `if image:` skip on `None` and on the
empty string, and `if command:` skip on `None` and on the empty list.
The two `environ.get` reads are passed in as `env_v3io_access_key`
(`V3IO_ACCESS_KEY`) and `env_v3io_username` (`V3IO_USERNAME`). -/
def MpiJob.init (name : String) (image : Option String) (command : Option (List String))
    (replicas : Int) (namespace_ : String)
    (env_v3io_access_key : String) (env_v3io_username : String) : MpiJob :=
  let j : MpiJob :=
    { api_instance := none
    , name := name
    , namespace_ := namespace_
    , launcher_pod_template := _mpijob_launcher_pod_template
    , worker_pod_template := _mpijob_worker_pod_template
    , struct_worker_replicas := replicas
    , struct_spec_replicas := none }
  let j := j._update_container (fun c => { c with name := name }) MPIJobPodTemplateType.all
  let j :=
    match image with
    | some img => if img = "" then j else
        j._update_container (fun c => { c with image := img }) MPIJobPodTemplateType.all
    | none => j
  let j :=
    match command with
    | some cmd => if cmd = [] then j else
        j._update_container (fun c => { c with command := ["mpirun", "python"] ++ cmd })
          [MPIJobPodTemplateType.worker]
    | none => j
  let j := j._update_access_token env_v3io_access_key MPIJobPodTemplateType.all
  let j := j._update_running_user env_v3io_username MPIJobPodTemplateType.all
  j

/-- `metadata` of the rendered job. -/
structure Metadata where
  name : String
  namespace_ : String
deriving Repr, DecidableEq

/-- The `'Launcher'` replica spec: `{'template': ...}`. -/
structure LauncherReplicaSpec where
  template : PodTemplate
deriving Repr, DecidableEq

/-- The `'Worker'` replica spec: `{'replicas': ..., 'template': ...}`. -/
structure WorkerReplicaSpec where
  replicas : Int
  template : PodTemplate
deriving Repr, DecidableEq

/-- The `'mpiReplicaSpecs'` dict. -/
structure MpiReplicaSpecs where
  Launcher : LauncherReplicaSpec
  Worker : WorkerReplicaSpec
deriving Repr, DecidableEq

/-- The `'spec'` dict of the job.  `replicas` is the `spec['replicas']`
key that exists only after the `replicas()` mutator ran (line 176);
`_generate_mpi_job_template` never creates it. -/
structure MpiJobSpec where
  slotsPerWorker : Int
  mpiReplicaSpecs : MpiReplicaSpecs
  replicas : Option Int
deriving Repr, DecidableEq

/-- The full rendered job dict. -/
structure MpiJobDescriptor where
  apiVersion : String
  kind : String
  metadata : Metadata
  spec : MpiJobSpec
deriving Repr, DecidableEq

/-- `to_dict()` (lines 183-184) returning `self._struct`, which
`_generate_mpi_job_template` (lines 113-130) built at `__init__` time.
`_struct` aliases the pod-template dicts, so mutations made after
construction show through it; rendering it from the current state is
therefore exact.  Line 126 puts
`self._pod_templates[MPIJobPodTemplateType.launcher]` under
`'Worker': {'template': ...}`, so both roles render the launcher
template. -/
def MpiJob.to_dict (j : MpiJob) : MpiJobDescriptor :=
  { apiVersion := "kubeflow.org/v1"
  , kind := "MPIJob"
  , metadata := { name := j.name, namespace_ := j.namespace_ }
  , spec :=
      { slotsPerWorker := 1
      , mpiReplicaSpecs :=
          { Launcher := { template := j.launcher_pod_template }
          , Worker := { replicas := j.struct_worker_replicas
                      , template := j.launcher_pod_template } }
      , replicas := j.struct_spec_replicas } }

/-- `volume(mount, volpath, access_key)` (lines 149-169).  The two
`environ.get` reads are passed in as `env_v3io_home` (`V3IO_HOME`) and
`env_v3io_access_key` (`V3IO_ACCESS_KEY`).  A `volpath` starting with
`~/` is expanded to `V3IO_HOME + volpath[1:]` before `split_path`
(`startswith('~/')` is embedded as a two-character prefix test on the
character list); an
`IndexError` escaping `split_path` (empty path) escapes `volume` too.
`access_key or environ.get(...)` falls back exactly when `access_key` is
the empty string. -/
def MpiJob.volume (j : MpiJob) (env_v3io_home env_v3io_access_key : String)
    (mount volpath access_key : String) : Except SplitPathError MpiJob :=
  let j := j._update_container
    (fun c => { c with volumeMounts := some [{ name := "v3io", mountPath := mount }] })
    MPIJobPodTemplateType.all
  let volpath :=
    if volpath.data.take 2 = ['~', '/']
    then String.mk (env_v3io_home.data ++ volpath.data.drop 1)
    else volpath
  match split_path volpath with
  | .error e => .error e
  | .ok (container, subpath) =>
    let access_key := if access_key = "" then env_v3io_access_key else access_key
    let vol : Volume :=
      { name := "v3io"
      , flexVolume :=
          { driver := "v3io/fuse"
          , options := { container := container, subPath := subpath, accessKey := access_key } } }
    .ok (j._update_volumes [vol] MPIJobPodTemplateType.all)

/-- `gpus(num, gpu_type)` (lines 171-173): sets
`containers[0]['resources'] = {'limits': {gpu_type: num}}` on the
launcher template only. -/
def MpiJob.gpus (j : MpiJob) (num : Int) (gpu_type : String) : MpiJob :=
  j._update_container (fun c => { c with resources := some { limits := [(gpu_type, num)] } })
    [MPIJobPodTemplateType.launcher]

/-- `replicas(replicas_num)` (lines 175-177): assigns
`self._struct['spec']['replicas'] = replicas_num`, creating a new
`spec`-level key; no validation of any kind is performed and
`mpiReplicaSpecs.Worker.replicas` is left untouched. -/
def MpiJob.replicas (j : MpiJob) (replicas_num : Int) : MpiJob :=
  { j with struct_spec_replicas := some replicas_num }

/-- `working_dir(working_dir)` (lines 179-181). -/
def MpiJob.working_dir (j : MpiJob) (working_dir : String) : MpiJob :=
  j._update_container (fun c => { c with workingDir := working_dir })
    MPIJobPodTemplateType.all

/-- `submit()` (lines 192-201): loads the in-cluster config and binds
`self.api_instance` to a fresh client (both external collaborators), then
issues the create request, whose remote outcome is printed and swallowed.
The state effect kept by the embedding is the client binding. -/
def MpiJob.submit (j : MpiJob) : MpiJob :=
  { j with api_instance := some () }

/-- Error escaping `delete()`. `notBound` models the `AttributeError`
raised by `self.api_instance.delete_namespaced_custom_object` when
`api_instance` is still `None` (set at line 93 and only ever rebound by
`submit()`); the surrounding `except ApiException` clause does not catch
`AttributeError`, so it escapes to the caller.  The spec names this
failure `NotBoundError`. -/
inductive DeleteError where
  | notBound
deriving Repr, DecidableEq

/-- `delete()` (lines 203-211).  With a bound client the remote delete is
an external call whose failures are caught and printed, so the local
outcome is `.ok ()`; with no bound client the attribute access on `None`
raises (see `DeleteError.notBound`). -/
def MpiJob.delete (j : MpiJob) : Except DeleteError Unit :=
  match j.api_instance with
  | none => .error .notBound
  | some _ => .ok ()

/-- Auxiliary: stripping one leading `'/'` from a list whose head is not
`'/'` makes `split_path_core` agree on both spellings. -/
theorem split_path_core_cons_slash (l : List Char) (hne : l ≠ [])
    (hh : l.head? ≠ some '/') :
    split_path_core ('/' :: l) = split_path_core l := by
  match l with
  | [] => exact absurd rfl hne
  | c :: cs =>
    have hc : c ≠ '/' := by simpa using hh
    simp [split_path_core, hc]

/-- C1: for a DualRole Builder constructed with name `"job1"`, image
`"img"` and command `["a","b"]` (any worker replica count, namespace and
environment), the worker role's pod template carries the command
`["mpirun", "python", "a", "b"]` while the launcher role's command stays
the empty (unset) list. -/
theorem dualrole_command_prefix (n : Int) (ns ak un : String) :
    (MpiJob.init "job1" (some "img") (some ["a", "b"]) n ns ak un).worker_pod_template.spec.containers.map (fun c => c.command) = [["mpirun", "python", "a", "b"]]
    ∧ (MpiJob.init "job1" (some "img") (some ["a", "b"]) n ns ak un).launcher_pod_template.spec.containers.map (fun c => c.command) = [[]] :=
  ⟨rfl, rfl⟩

/-- C2: in every rendered descriptor — hence after every sequence of
mutator calls, since the quantifier ranges over all builder states — the
template under the Worker replica spec is the very launcher template (and
so coincides with the Launcher role's template), and replacing the
builder's separately-maintained worker pod template by anything at all
leaves the rendered descriptor unchanged. -/
theorem worker_spec_renders_launcher_template (j : MpiJob) (t : PodTemplate) :
    j.to_dict.spec.mpiReplicaSpecs.Worker.template = j.launcher_pod_template
    ∧ j.to_dict.spec.mpiReplicaSpecs.Worker.template = j.to_dict.spec.mpiReplicaSpecs.Launcher.template
    ∧ ({ j with worker_pod_template := t } : MpiJob).to_dict = j.to_dict :=
  ⟨rfl, rfl, rfl⟩

/-- C3: `volume("/data", "myctr/sub")` succeeds and the rendered
descriptor shows, on both roles it renders, a volume definition with
container `"myctr"` and subpath `"/sub"` (written by `_update_volumes` to
the template-level `volumes` key) and a volume mount entry at `/data`. -/
theorem volume_myctr_sub_in_descriptor :
    ((MpiJob.init "job1" none none 1 "default-tenant" "" "").volume "" "" "/data" "myctr/sub" "").map
      (fun j2 =>
        (j2.to_dict.spec.mpiReplicaSpecs.Launcher.template.volumes,
         j2.to_dict.spec.mpiReplicaSpecs.Worker.template.volumes,
         j2.to_dict.spec.mpiReplicaSpecs.Launcher.template.spec.containers.map (fun c => c.volumeMounts),
         j2.to_dict.spec.mpiReplicaSpecs.Worker.template.spec.containers.map (fun c => c.volumeMounts)))
    = .ok
        (some [{ name := "v3io"
               , flexVolume :=
                   { driver := "v3io/fuse"
                   , options := { container := "myctr", subPath := "/sub", accessKey := "" } } }],
         some [{ name := "v3io"
               , flexVolume :=
                   { driver := "v3io/fuse"
                   , options := { container := "myctr", subPath := "/sub", accessKey := "" } } }],
         [some [{ name := "v3io", mountPath := "/data" }]],
         [some [{ name := "v3io", mountPath := "/data" }]]) :=
  rfl

/-- C4: the claim is right about the intended behavior but the code slips:
`replicas(3)` writes `spec['replicas'] = 3`, a key nothing in the v1
template reads, while the rendered Worker replica count keeps its
construction-time value 1. -/
theorem replicas_mutator_misses_worker :
    ((MpiJob.init "job1" none none 1 "default-tenant" "" "").replicas 3).to_dict.spec.mpiReplicaSpecs.Worker.replicas = 1
    ∧ ((MpiJob.init "job1" none none 1 "default-tenant" "" "").replicas 3).to_dict.spec.replicas = some 3 :=
  ⟨rfl, rfl⟩

/-- C5 counterexample: `replicas(0)` — a count below 1 — completes
normally (the source raises nothing; the embedded mutator is a total
function) and stores 0 under `spec['replicas']`, so no
`InvalidArgumentError` is raised. -/
theorem replicas_zero_succeeds :
    ((MpiJob.init "job1" none none 1 "default-tenant" "" "").replicas 0).to_dict.spec.replicas = some 0 :=
  rfl

/-- C5 amended: for every count below 1, `replicas(count)` performs no
validation: it returns normally with `spec['replicas']` set to the count
and the rendered Worker replica count untouched. -/
theorem replicas_below_one_no_validation (j : MpiJob) (n : Int) (_h : n < 1) :
    (j.replicas n).to_dict.spec.replicas = some n
    ∧ (j.replicas n).to_dict.spec.mpiReplicaSpecs.Worker.replicas = j.to_dict.spec.mpiReplicaSpecs.Worker.replicas :=
  ⟨rfl, rfl⟩

/-- Witness for the amended C5 at count 0 on a concrete builder. -/
theorem replicas_below_one_no_validation_witness :
    (0 : Int) < 1
    ∧ ((MpiJob.init "job1" none none 1 "default-tenant" "" "").replicas 0).to_dict.spec.replicas = some 0 :=
  ⟨by decide,
   (replicas_below_one_no_validation (MpiJob.init "job1" none none 1 "default-tenant" "" "") 0 (by decide)).1⟩

/-- C6: on any builder whose client handle is still unbound — which is
the state `__init__` leaves and only `submit()` changes — `delete()`
fails with the not-bound error. -/
theorem delete_unbound_fails (j : MpiJob) (h : j.api_instance = none) :
    j.delete = .error DeleteError.notBound := by
  unfold MpiJob.delete
  rw [h]

/-- Witness for C6: a freshly constructed builder (no `submit()` ran) has
no client handle and its `delete()` fails with the not-bound error. -/
theorem delete_unbound_fails_witness :
    (MpiJob.init "job1" (some "img") (some ["a", "b"]) 1 "default-tenant" "" "").api_instance = none
    ∧ (MpiJob.init "job1" (some "img") (some ["a", "b"]) 1 "default-tenant" "" "").delete = .error DeleteError.notBound :=
  ⟨rfl,
   delete_unbound_fails (MpiJob.init "job1" (some "img") (some ["a", "b"]) 1 "default-tenant" "" "") rfl⟩

/-- C7 counterexample: the worker default template does declare a
resources block (GPU limit 1), yet after `gpus(2)` the worker role's GPU
request is still 1, not 2 — `gpus` only touches the launcher role. -/
theorem gpus_two_not_on_worker :
    ((MpiJob.init "job1" none none 1 "default-tenant" "" "").gpus 2 "nvidia.com/gpu").worker_pod_template.spec.containers.map (fun c => c.resources) = [some { limits := [("nvidia.com/gpu", 1)] }]
    ∧ ((MpiJob.init "job1" none none 1 "default-tenant" "" "").gpus 2 "nvidia.com/gpu").worker_pod_template.spec.containers.map (fun c => c.resources) ≠ [some { limits := [("nvidia.com/gpu", 2)] }] :=
  ⟨rfl, by decide⟩

/-- C7 amended: `gpus(num, gpu_type)` sets the GPU resource request on
the launcher role only; the worker pod template — although its default
template is the one that declares a resources block — is left entirely
unchanged. -/
theorem gpus_updates_launcher_only (num : Int) (gpu_type ns : String) :
    _mpijob_worker_pod_template.spec.containers.map (fun c => c.resources) = [some { limits := [("nvidia.com/gpu", 1)] }]
    ∧ ((MpiJob.init "job1" none none 1 ns "" "").gpus num gpu_type).launcher_pod_template.spec.containers.map (fun c => c.resources) = [some { limits := [(gpu_type, num)] }]
    ∧ ((MpiJob.init "job1" none none 1 ns "" "").gpus num gpu_type).worker_pod_template = (MpiJob.init "job1" none none 1 ns "" "").worker_pod_template :=
  ⟨rfl, rfl, rfl⟩

/-- C8: `split_path("")` fails with the invalid-path error (the
`IndexError` of `mntpath[0]` on an empty string, which the spec names
`InvalidPathError`). -/
theorem split_path_empty_fails :
    split_path "" = .error SplitPathError.invalidPath :=
  rfl

/-- C9: `split_path` maps `"users/bob/data"` to `("users", "/bob/data")`
— the subpath keeps its leading slash — and maps `"users"` to
`("users", "")` — no second segment gives the empty subpath. -/
theorem split_path_examples :
    split_path "users/bob/data" = .ok ("users", "/bob/data")
    ∧ split_path "users" = .ok ("users", "") :=
  ⟨rfl, rfl⟩

/-- C10: for every non-empty path `p` that does not start with `'/'`,
`split_path` returns the same result on `"/" ++ p` as on `p`. -/
theorem split_path_leading_slash_invariant (p : String) (h1 : p ≠ "")
    (h2 : p.data.head? ≠ some '/') :
    split_path ("/" ++ p) = split_path p := by
  have hdata : ("/" ++ p).data = '/' :: p.data := by
    obtain ⟨l⟩ := p
    rfl
  have hne : p.data ≠ [] := by
    intro h
    apply h1
    obtain ⟨l⟩ := p
    simp only [String.data] at h
    simp [h]
  unfold split_path
  rw [hdata, split_path_core_cons_slash p.data hne h2]

/-- Witness for C10 at the concrete path `"a/b"`. -/
theorem split_path_leading_slash_invariant_witness :
    ("a/b" : String) ≠ ""
    ∧ ("a/b" : String).data.head? ≠ some '/'
    ∧ split_path ("/" ++ "a/b") = split_path "a/b" :=
  ⟨by decide, by decide,
   split_path_leading_slash_invariant "a/b" (by decide) (by decide)⟩
